import Mathlib

/-!
Shallow embedding of the homeapp core: the dual-transport synchronization
layer (push WebSocket transport and pull REST transport) and the scene
activation/deactivation engine, translated from the TypeScript source
(src/api/homeAssistantWebSocket.ts, src/api/homeAssistantApi.ts,
src/contexts/HomeAssistantContext.tsx), together with theorems settling
the frozen claims about the specification.
-/

namespace HomeApp

/-- JSON-like attribute values, as stored in an entity attributes map. -/
inductive JValue where
  | jnull : JValue
  | jbool : Bool → JValue
  | jnum : Int → JValue
  | jstr : String → JValue
  | jarr : List JValue → JValue
  | jobj : List (String × JValue) → JValue
deriving Repr

mutual

/-- Serialization of a JSON value, mirroring what JSON.stringify produces
on the in-memory representation (key order preserved). -/
def jsonStr : JValue → String
  | .jnull => "null"
  | .jbool b => if b then "true" else "false"
  | .jnum n => toString n
  | .jstr s => "\x22" ++ s ++ "\x22"
  | .jarr xs => "[" ++ jsonList xs ++ "]"
  | .jobj fs => "\x7b" ++ jsonFields fs ++ "\x7d"

/-- Comma-joined serialization of a list of JSON values. -/
def jsonList : List JValue → String
  | [] => ""
  | [x] => jsonStr x
  | x :: y :: xs => jsonStr x ++ "," ++ jsonList (y :: xs)

/-- Comma-joined serialization of the fields of a JSON object. -/
def jsonFields : List (String × JValue) → String
  | [] => ""
  | [(k, v)] => "\x22" ++ k ++ "\x22:" ++ jsonStr v
  | (k, v) :: f :: fs => "\x22" ++ k ++ "\x22:" ++ jsonStr v ++ "," ++ jsonFields (f :: fs)

end

/-- An entity as defined in src/api/types.ts: identifier, state value,
attributes map, and the two timestamps (the context field of the source
is carried along as an opaque identifier triple and never inspected by
the core logic, so it is omitted here). -/
structure Entity where
  entity_id : String
  state : String
  attributes : List (String × JValue)
  last_changed : String
  last_updated : String
deriving Repr

/-- Lookup of a key in an attributes map (JS property access). -/
def lookupAttr (attrs : List (String × JValue)) (k : String) : Option JValue :=
  (attrs.find? (fun p => p.fst == k)).map (fun p => p.snd)

/-- Serialized form of an attributes map, as compared by the pull
transport poll loop via JSON.stringify. -/
def serializeAttrs (attrs : List (String × JValue)) : String :=
  jsonStr (.jobj attrs)

/-! ## Synchronization Facade: the entity table

The facade stores the table as an array of entities
(HomeAssistantContext.tsx, the entities React state). -/

/-- getEntity from HomeAssistantContext.tsx: find the entity with the
given identifier in the table (Array.prototype.find). -/
def getEntity (entities : List Entity) (entityId : String) : Option Entity :=
  entities.find? (fun e => e.entity_id == entityId)

/-- Array.prototype.findIndex over the entity table: index of the first
entry with the given identifier. -/
def findEntityIdx (entityId : String) : List Entity → Option Nat
  | [] => none
  | e :: rest =>
    if e.entity_id == entityId then some 0
    else (findEntityIdx entityId rest).map (fun i => i + 1)

/-- handleEntityStateChange from HomeAssistantContext.tsx: on a change
notification, if the new state is null do nothing; otherwise replace the
entity at its existing index, or append it if absent. -/
def handleEntityStateChange (prevEntities : List Entity) (entityId : String)
    (newState : Option Entity) : List Entity :=
  match newState with
  | none => prevEntities
  | some ns =>
    match findEntityIdx entityId prevEntities with
    | some i => prevEntities.set i ns
    | none => prevEntities ++ [ns]

/-- Delivering a whole sequence of change notifications for one entity id
to the facade, in arrival order. -/
def applyChanges (init : List Entity) (entityId : String)
    (changes : List Entity) : List Entity :=
  changes.foldl (fun table e => handleEntityStateChange table entityId (some e)) init

lemma findEntityIdx_cons_ne (x : Entity) (rest : List Entity)
    (entityId : String) (hx : (x.entity_id == entityId) = false) :
    findEntityIdx entityId (x :: rest)
      = (findEntityIdx entityId rest).map (fun i => i + 1) := by
  simp [findEntityIdx, hx]

lemma handleEntityStateChange_cons_ne (x : Entity) (rest : List Entity)
    (entityId : String) (ns : Entity) (hx : (x.entity_id == entityId) = false) :
    handleEntityStateChange (x :: rest) entityId (some ns)
      = x :: handleEntityStateChange rest entityId (some ns) := by
  unfold handleEntityStateChange
  rw [findEntityIdx_cons_ne x rest entityId hx]
  cases h : findEntityIdx entityId rest with
  | none => simp
  | some i => simp [List.set]

lemma getEntity_handleEntityStateChange (table : List Entity)
    (entityId : String) (ns : Entity) (hns : ns.entity_id = entityId) :
    getEntity (handleEntityStateChange table entityId (some ns)) entityId = some ns := by
  induction table with
  | nil =>
    simp [handleEntityStateChange, findEntityIdx, getEntity, List.find?, hns]
  | cons x rest ih =>
    by_cases hx : x.entity_id = entityId
    · unfold handleEntityStateChange findEntityIdx
      simp only [hx, beq_self_eq_true, if_true]
      simp [getEntity, List.find?, List.set, hns]
    · have hx' : (x.entity_id == entityId) = false := beq_eq_false_iff_ne.mpr hx
      rw [handleEntityStateChange_cons_ne x rest entityId ns hx']
      have ih' : List.find? (fun e => e.entity_id == entityId)
          (handleEntityStateChange rest entityId (some ns)) = some ns := ih
      simp [getEntity, List.find?, hx', ih']

/-! ## Scene Engine (SceneProvider in HomeAssistantContext.tsx) -/

/-- A captured per-entity snapshot (interface EntityState). -/
structure EntityState where
  entityId : String
  state : String
  attributes : List (String × JValue)
deriving Repr

/-- An Active Scene Record (interface ActiveSceneState). -/
structure ActiveSceneState where
  sceneId : String
  originalStates : List EntityState
deriving Repr

/-- The activeScenes map, Record from scene id to ActiveSceneState. -/
abbrev SceneMap := List (String × ActiveSceneState)

/-- Lookup in the activeScenes record. -/
def sceneLookup (m : SceneMap) (sceneId : String) : Option ActiveSceneState :=
  ((m : List (String × ActiveSceneState)).find? (fun p => p.fst == sceneId)).map
    (fun p => p.snd)

/-- JS spread update: existing key overwritten in place, new key appended. -/
def sceneSet (m : SceneMap) (sceneId : String) (v : ActiveSceneState) : SceneMap :=
  if (m : List (String × ActiveSceneState)).any (fun p => p.fst == sceneId) then
    (m : List (String × ActiveSceneState)).map
      (fun p => if p.fst == sceneId then (sceneId, v) else p)
  else (m : List (String × ActiveSceneState)) ++ [(sceneId, v)]

/-- JS delete of a key from the record. -/
def sceneDelete (m : SceneMap) (sceneId : String) : SceneMap :=
  (m : List (String × ActiveSceneState)).filter (fun p => !(p.fst == sceneId))

/-- isSceneActive: a scene is active when the record holds an entry for it. -/
def isSceneActive (m : SceneMap) (sceneId : String) : Bool :=
  (m : List (String × ActiveSceneState)).any (fun p => p.fst == sceneId)

/-- getSceneEntities: the member entity ids of a scene are the keys of its
entities attribute; an absent (or non-object) value yields the empty list. -/
def getSceneEntities (scene : Entity) : List String :=
  match lookupAttr scene.attributes "entities" with
  | some (.jobj fs) => fs.map (fun p => p.fst)
  | _ => []

/-- Whether the first character list begins with the second one
(structural form of the JS String startsWith test). -/
def charsBeginWith : List Char → List Char → Bool
  | _, [] => true
  | [], _ :: _ => false
  | c :: cs, p :: ps => c == p && charsBeginWith cs ps

/-- JS String startsWith on the underlying character lists. -/
def strBeginsWith (s pre : String) : Bool :=
  charsBeginWith s.data pre.data

/-- The characters before the first dot. -/
def charsDomain : List Char → List Char
  | [] => []
  | c :: cs => if c == '.' then [] else c :: charsDomain cs

/-- The per-entity part of captureEntityStates: for a light-domain entity
only brightness, color_temp and rgb_color are kept (each only when
present); for every other domain the whole attributes map is copied; a
missing entity is captured as state unknown with no attributes. -/
def captureOne (entities : List Entity) (entityId : String) : EntityState :=
  match getEntity entities entityId with
  | none => ⟨entityId, "unknown", []⟩
  | some entity =>
    if strBeginsWith entityId "light." then
      let a1 := match lookupAttr entity.attributes "brightness" with
        | some v => [("brightness", v)]
        | none => []
      let a2 := match lookupAttr entity.attributes "color_temp" with
        | some v => [("color_temp", v)]
        | none => []
      let a3 := match lookupAttr entity.attributes "rgb_color" with
        | some v => [("rgb_color", v)]
        | none => []
      ⟨entityId, entity.state, a1 ++ a2 ++ a3⟩
    else ⟨entityId, entity.state, entity.attributes⟩

/-- captureEntityStates: capture every member entity in order (the final
filter of the source discards nothing, since no element is null). -/
def captureEntityStates (entities : List Entity) (entityIds : List String) :
    List EntityState :=
  entityIds.map (captureOne entities)

/-- A service invocation issued through the facade callService. -/
structure ServiceCall where
  domain : String
  service : String
  data : List (String × JValue)
deriving Repr

/-- Outcome of activateScene, recording the record in force at the moment
the scene-activation call is issued, the final activeScenes map, the call
itself, and whether an error was surfaced to the facade error string. -/
structure ActivateResult where
  recordAtCall : Option ActiveSceneState
  finalScenes : SceneMap
  callIssued : Option ServiceCall
  errorSurfaced : Option String
deriving Repr

/-- activateScene: resolve the scene entity (failing with a not-found
error if absent), capture the member states, store the Active Scene
Record, then issue scene.turn_on; the catch handler deletes the record
for the scene id. The callFails flag stands for the outcome of the
awaited callService invocation; on failure the facade callService has
already set the error string before rethrowing. -/
def activateScene (entities : List Entity) (scenes : SceneMap)
    (sceneId : String) (callFails : Bool) : ActivateResult :=
  match getEntity entities sceneId with
  | none =>
    { recordAtCall := none
      finalScenes := sceneDelete scenes sceneId
      callIssued := none
      errorSurfaced := some ("Scene " ++ sceneId ++ " not found") }
  | some sceneEntity =>
    let affectedEntityIds := getSceneEntities sceneEntity
    let originalStates := captureEntityStates entities affectedEntityIds
    let scenes1 := sceneSet scenes sceneId ⟨sceneId, originalStates⟩
    let call : ServiceCall := ⟨"scene", "turn_on", [("entity_id", .jstr sceneId)]⟩
    if callFails then
      { recordAtCall := sceneLookup scenes1 sceneId
        finalScenes := sceneDelete scenes1 sceneId
        callIssued := some call
        errorSurfaced := some ("Failed to call service scene.turn_on") }
    else
      { recordAtCall := sceneLookup scenes1 sceneId
        finalScenes := scenes1
        callIssued := some call
        errorSurfaced := none }

/-- The domain of an entity id: everything before the first dot (JS
split on the dot, first element). -/
def entityDomain (entityId : String) : String :=
  String.mk (charsDomain entityId.data)

/-- The restoration calls deactivateScene issues for one captured
snapshot, by domain: lights get turn_on with the retained attribute
subset and a one-second transition (or turn_off with the transition);
switch-like domains get turn_on or turn_off by snapshot state; covers
get set_cover_position or close_cover; any other domain gets a
best-effort turn_on or turn_off, or no call at all. -/
def restoreCalls (snap : EntityState) : List ServiceCall :=
  let domain := entityDomain snap.entityId
  if domain == "light" then
    if snap.state == "on" then
      let base := [("entity_id", JValue.jstr snap.entityId), ("transition", JValue.jnum 1)]
      let b1 := match lookupAttr snap.attributes "brightness" with
        | some v => [("brightness", v)]
        | none => []
      let b2 := match lookupAttr snap.attributes "color_temp" with
        | some v => [("color_temp", v)]
        | none => []
      let b3 := match lookupAttr snap.attributes "rgb_color" with
        | some v => [("rgb_color", v)]
        | none => []
      [⟨domain, "turn_on", base ++ b1 ++ b2 ++ b3⟩]
    else
      [⟨domain, "turn_off",
        [("entity_id", .jstr snap.entityId), ("transition", .jnum 1)]⟩]
  else if domain == "switch" || domain == "input_boolean" then
    [⟨domain, if snap.state == "on" then "turn_on" else "turn_off",
      [("entity_id", .jstr snap.entityId)]⟩]
  else if domain == "cover" then
    if snap.state == "open" || snap.state == "opening" then
      [⟨domain, "set_cover_position",
        [("entity_id", .jstr snap.entityId),
         ("position", (lookupAttr snap.attributes "current_position").getD .jnull)]⟩]
    else
      [⟨domain, "close_cover", [("entity_id", .jstr snap.entityId)]⟩]
  else
    if snap.state == "on" then
      [⟨domain, "turn_on", [("entity_id", .jstr snap.entityId)]⟩]
    else if snap.state == "off" then
      [⟨domain, "turn_off", [("entity_id", .jstr snap.entityId)]⟩]
    else []

/-- deactivateScene: no-op when no Active Scene Record exists; otherwise
the record is removed first and then the per-entity restoration calls
are issued independently, in capture order. -/
def deactivateScene (scenes : SceneMap) (sceneId : String) :
    SceneMap × List ServiceCall :=
  match sceneLookup scenes sceneId with
  | none => (scenes, [])
  | some activeScene =>
    (sceneDelete scenes sceneId,
     activeScene.originalStates.flatMap restoreCalls)

/-! ## Push Transport (HomeAssistantWebSocketApi in homeAssistantWebSocket.ts) -/

/-- The ConnectionState constants of the push transport. -/
inductive ConnState where
  | closed
  | connecting
  | authenticating
  | connected
  | reconnecting
  | error
deriving Repr, DecidableEq

/-- Observable effects of a push-transport step: connection-state
callbacks, error callbacks, settlement of a pending invocation promise,
and settlement of the connect promise. -/
inductive WsEvent where
  | stateChanged (s : ConnState)
  | errorNotified (msg : String)
  | resolvedPending (id : Nat) (result : Option JValue)
  | rejectedPending (id : Nat) (msg : String)
  | connectResolved
  | connectRejected (msg : String)
deriving Repr

/-- An event that settles the promise of a pending invocation. -/
def WsEvent.isSettlement : WsEvent → Bool
  | .resolvedPending _ _ => true
  | .rejectedPending _ _ => true
  | _ => false

/-- An event that rejects the promise of a pending invocation. -/
def WsEvent.isRejection : WsEvent → Bool
  | .rejectedPending _ _ => true
  | _ => false

/-- An error pushed to the error-observer channel. -/
def WsEvent.isErrorNotice : WsEvent → Bool
  | .errorNotified _ => true
  | _ => false

/-- The mutable fields of HomeAssistantWebSocketApi that the core logic
reads and writes: connection state, the monotone message id counter, the
pending command map (correlation id to resolve callback), the reconnect
attempt counter, and whether each timer and the socket are live. -/
structure WsState where
  connectionState : ConnState
  messageId : Nat
  pendingCommands : List Nat
  reconnectAttempts : Nat
  heartbeatTimerActive : Bool
  reconnectTimerActive : Bool
  socketOpen : Bool
deriving Repr, DecidableEq

/-- updateConnectionState: store the new state and notify subscribers,
doing nothing at all when the state is unchanged. -/
def updateConnectionState (st : WsState) (s : ConnState) : WsState × List WsEvent :=
  if st.connectionState = s then (st, [])
  else ({ st with connectionState := s }, [.stateChanged s])

/-- clearTimers: stop the heartbeat interval and the reconnect timer. -/
def clearTimers (st : WsState) : WsState :=
  { st with heartbeatTimerActive := false, reconnectTimerActive := false }

/-- disconnect: clear the timers, close and drop the socket, and move to
Closed. The pendingCommands map is not touched. -/
def wsDisconnect (st : WsState) : WsState × List WsEvent :=
  let st1 := clearTimers st
  let st2 := { st1 with socketOpen := false }
  updateConnectionState st2 .closed

/-- A result message from the controller: correlation id, success flag,
optional result payload, optional error with code and message. -/
structure ResultMessage where
  id : Nat
  success : Bool
  result : Option JValue
  error : Option (String × String)
deriving Repr

/-- The message text used when notifying a failed command: the error
message of the controller when it is a non-empty string, the fallback
text otherwise (JS truthiness of the optional chain). -/
def commandFailedText (err : Option (String × String)) : String :=
  "Command failed: " ++
    (match err with
     | some (_, msg) => if msg == "" then "Unknown error" else msg
     | none => "Unknown error")

/-- handleResult: look up the pending callback by id; when present,
delete the entry, then on success resolve the promise with the payload
and on failure only notify the error subscribers; an unknown id is
dropped silently. -/
def handleResult (st : WsState) (m : ResultMessage) : WsState × List WsEvent :=
  if st.pendingCommands.any (fun i => i == m.id) then
    let st1 := { st with
      pendingCommands := st.pendingCommands.filter (fun i => !(i == m.id)) }
    if m.success then (st1, [.resolvedPending m.id m.result])
    else (st1, [.errorNotified (commandFailedText m.error)])
  else (st, [])

/-- The inbound message forms the handleMessage switch distinguishes. -/
inductive WsMessage where
  | authRequired
  | authOk
  | authInvalid (message : String)
  | result (m : ResultMessage)
  | pong
deriving Repr

/-- The error text built for an auth_invalid message. -/
def authFailedText (message : String) : String :=
  "Authentication failed: " ++ message

/-- handleMessage on the cases the claims concern: auth_required moves
to Authenticating (and sends the credential), auth_ok moves to Connected
and resolves the connect promise, auth_invalid moves to Error, notifies
the error and rejects the connect promise, result messages delegate to
handleResult, pong is ignored. -/
def handleMessage (st : WsState) (msg : WsMessage) : WsState × List WsEvent :=
  match msg with
  | .authRequired => updateConnectionState st .authenticating
  | .authOk =>
    let (st1, ev1) := updateConnectionState st .connected
    (st1, ev1 ++ [.connectResolved])
  | .authInvalid message =>
    let (st1, ev1) := updateConnectionState st .error
    (st1, ev1 ++ [.errorNotified (authFailedText message),
                  .connectRejected (authFailedText message)])
  | .result m => handleResult st m
  | .pong => (st, [])

/-- The fixed reconnection parameters of the source. -/
def maxReconnectAttempts : Nat := 5

/-- Initial reconnect delay in milliseconds. -/
def reconnectDelay : Nat := 1000

/-- attemptReconnect: do nothing while a reconnect timer is already
scheduled; once the attempt counter has reached the maximum move to the
terminal Error state and notify, scheduling nothing; otherwise move to
Reconnecting and schedule a retry after an exponential-backoff delay of
the base doubled per already-consumed attempt. The third component is
the scheduled delay in milliseconds, none when nothing is scheduled. -/
def attemptReconnect (st : WsState) : WsState × List WsEvent × Option Nat :=
  if st.reconnectTimerActive then (st, [], none)
  else if st.reconnectAttempts ≥ maxReconnectAttempts then
    let (st1, ev1) := updateConnectionState st .error
    (st1,
     ev1 ++ [.errorNotified
       ("Failed to reconnect after " ++ toString maxReconnectAttempts ++ " attempts")],
     none)
  else
    let delay := reconnectDelay * 2 ^ st.reconnectAttempts
    let (st1, ev1) := updateConnectionState st .reconnecting
    ({ st1 with reconnectTimerActive := true }, ev1, some delay)

/-- The reconnect timer firing on a connection attempt that fails: the
timer handler clears the timer flag, increments the attempt counter and
calls connect, which moves to Connecting; the failing socket then closes,
which moves to Closed and clears the timers. -/
def reconnectTimerFiresAndFails (st : WsState) : WsState :=
  let st1 := { st with reconnectTimerActive := false,
                       reconnectAttempts := st.reconnectAttempts + 1 }
  let st2 := { st1 with connectionState := .connecting }
  let st3 := { st2 with connectionState := .closed }
  clearTimers st3

/-- The cascade of reconnection attempts after an unexpected close when
every attempt fails: repeatedly run attemptReconnect and, as long as a
retry is scheduled, let the timer fire and the attempt fail; collect the
scheduled delays. Fuel bounds the iteration. -/
def reconnectCascade : Nat → WsState → List Nat × WsState
  | 0, st => ([], st)
  | fuel + 1, st =>
    match attemptReconnect st with
    | (st1, _, some d) =>
      let st2 := reconnectTimerFiresAndFails st1
      let (ds, stf) := reconnectCascade fuel st2
      (d :: ds, stf)
    | (st1, _, none) => ([], st1)

/-! ## Pull Transport (RestApiAdapter in homeAssistantApi.ts) -/

/-- Observable effects of a pull-transport step on the observer
channels. -/
inductive RestEvent where
  | stateChanged (s : ConnState)
  | errorNotified (msg : String)
deriving Repr

/-- An error pushed to the error-observer channel of the pull
transport. -/
def RestEvent.isErrorNotice : RestEvent → Bool
  | .errorNotified _ => true
  | _ => false

/-- A change notification delivered (broadcast to every registered
listener) by the poll loop: entity id, the whole replaced entity, and
the previously observed entity when there was one. -/
structure Notification where
  entityId : String
  newState : Entity
  oldState : Option Entity
deriving Repr

/-- The mutable fields of RestApiAdapter that the core logic reads and
writes: the connected flag, whether the polling interval is live, the
number of registered entity listeners, and the last observed entity per
id (the lastStates map). -/
structure RestState where
  connected : Bool
  pollingActive : Bool
  callbackCount : Nat
  lastStates : List (String × Entity)
deriving Repr

/-- Lookup in the lastStates map. -/
def assocLookup (m : List (String × Entity)) (k : String) : Option Entity :=
  (m.find? (fun p => p.fst == k)).map (fun p => p.snd)

/-- JS Map.set: value replaced in place for an existing key, appended
for a new key. -/
def assocSet (m : List (String × Entity)) (k : String) (v : Entity) :
    List (String × Entity) :=
  if m.any (fun p => p.fst == k) then
    m.map (fun p => if p.fst == k then (k, v) else p)
  else m ++ [(k, v)]

/-- The skip test of the poll loop: an entity is unchanged when a last
observed value exists whose state value and JSON-serialized attributes
mapping both coincide with the fetched one. -/
def entityUnchanged (old : Option Entity) (e : Entity) : Bool :=
  match old with
  | some o => o.state == e.state
      && serializeAttrs o.attributes == serializeAttrs e.attributes
  | none => false

/-- One iteration of the loop body of pollEntities: skip an unchanged
entity; otherwise notify every listener with the whole replaced entity
and record it as the last observed value. -/
def pollStepOne (acc : RestState × List Notification) (entity : Entity) :
    RestState × List Notification :=
  let old := assocLookup acc.1.lastStates entity.entity_id
  if entityUnchanged old entity then acc
  else
    ({ acc.1 with lastStates := assocSet acc.1.lastStates entity.entity_id entity },
     acc.2 ++ [⟨entity.entity_id, entity, old⟩])

/-- One poll cycle over a successful fetchAllState result: a guard
returns immediately when disconnected or when no listener is
registered; otherwise every fetched entity is diffed in order. -/
def pollEntities (st : RestState) (fetched : List Entity) :
    RestState × List Notification :=
  if !st.connected || st.callbackCount == 0 then (st, [])
  else fetched.foldl pollStepOne (st, [])

/-- RestApiAdapter.disconnect: drop the connected flag, stop the polling
interval, and notify the connection-state observers of Closed (the
notification is sent unconditionally on every call). -/
def restDisconnect (st : RestState) : RestState × List RestEvent :=
  ({ st with connected := false, pollingActive := false },
   [.stateChanged .closed])

/-- RestApiAdapter.getConnectionState: Connected or Closed by the
connected flag. -/
def restConnectionState (st : RestState) : ConnState :=
  if st.connected then .connected else .closed

/-! ## Concrete fixtures used by witnesses and counterexamples -/

/-- A first delivered value for entity light.x (later timestamps). -/
def entA : Entity := ⟨"light.x", "off", [], "2024-01-02T00:00:00Z", "2024-01-02T00:00:00Z"⟩

/-- A second delivered value for entity light.x, carrying an earlier
timestamp than the first (so timestamp comparison would favor the
first). -/
def entB : Entity :=
  ⟨"light.x", "on", [("brightness", .jnum 10)], "2024-01-01T00:00:00Z", "2024-01-01T00:00:00Z"⟩

/-- A connected push-transport state with one outstanding invocation,
correlation id 5. -/
def wsPendingState : WsState :=
  { connectionState := .connected, messageId := 8, pendingCommands := [5],
    reconnectAttempts := 0, heartbeatTimerActive := true,
    reconnectTimerActive := false, socketOpen := true }

/-- A connected push-transport state with one outstanding invocation,
correlation id 3. -/
def wsResultState : WsState :=
  { connectionState := .connected, messageId := 4, pendingCommands := [3],
    reconnectAttempts := 0, heartbeatTimerActive := true,
    reconnectTimerActive := false, socketOpen := true }

/-- A controller rejection reply for invocation 3, carrying an error
code and message. -/
def failedResult : ResultMessage := ⟨3, false, none, some ("service_not_found", "boom")⟩

/-! ## Theorems for the claims -/

/-- C10: a change notification carrying a null new-entity value leaves
the entity table of the Synchronization Facade completely unchanged. -/
theorem facade_null_change_leaves_table (table : List Entity) (entityId : String) :
    handleEntityStateChange table entityId none = table := rfl

/-- C1: for every nonempty sequence of change notifications delivered to
the Synchronization Facade for the same entity id, the entity table
after the sequence maps that id to the last-delivered entity value,
whatever its timestamps: wholesale replacement in arrival order. -/
theorem facade_last_write_wins :
    ∀ (changes : List Entity) (hne : changes ≠ []) (entityId : String)
      (init : List Entity), (∀ e ∈ changes, e.entity_id = entityId) →
      getEntity (applyChanges init entityId changes) entityId
        = some (changes.getLast hne)
  | [x], _, entityId, init, hall => by
    simp only [applyChanges, List.foldl_cons, List.foldl_nil, List.getLast_singleton]
    exact getEntity_handleEntityStateChange init entityId x
      (hall x (List.mem_singleton.mpr rfl))
  | x :: y :: ys, _, entityId, init, hall => by
    have h2 : (y :: ys) ≠ [] := by simp
    rw [List.getLast_cons h2]
    have hstep : applyChanges init entityId (x :: y :: ys)
        = applyChanges (handleEntityStateChange init entityId (some x)) entityId (y :: ys) := rfl
    rw [hstep]
    exact facade_last_write_wins (y :: ys) h2 entityId
      (handleEntityStateChange init entityId (some x))
      (fun e he => hall e (List.mem_cons_of_mem x he))

/-- Witness for C1: delivering the two light.x values in order leaves
the table mapping light.x to the second one, although its timestamps
are older. -/
theorem facade_last_write_wins_witness :
    getEntity (applyChanges [] "light.x" [entA, entB]) "light.x" = some entB := by
  have h := facade_last_write_wins [entA, entB] (by simp) "light.x" []
    (by
      intro e he
      rcases List.mem_cons.mp he with rfl | he2
      · rfl
      · rcases List.mem_cons.mp he2 with rfl | he3
        · rfl
        · cases he3)
  simpa using h

/-- C3 counterexample: with invocation 5 outstanding, disconnect neither
rejects its promise (no settlement event of any kind is produced) nor
removes the pending entry, falsifying the claim that outstanding
invocations fail with Cancelled. -/
theorem wsDisconnect_no_cancellation_counterexample :
    (wsDisconnect wsPendingState).1.pendingCommands = [5] ∧
    ((wsDisconnect wsPendingState).2.any WsEvent.isSettlement) = false := by decide

/-- C3 amended: disconnect stops both timers and transitions the
transport to Closed, but it does not cancel outstanding invocations:
the pending map is left untouched and no pending promise is settled. -/
theorem wsDisconnect_closes_stops_timers_leaves_pending (st : WsState) :
    (wsDisconnect st).1.connectionState = .closed ∧
    (wsDisconnect st).1.heartbeatTimerActive = false ∧
    (wsDisconnect st).1.reconnectTimerActive = false ∧
    (wsDisconnect st).1.pendingCommands = st.pendingCommands ∧
    ((wsDisconnect st).2.any WsEvent.isSettlement) = false := by
  unfold wsDisconnect clearTimers updateConnectionState
  by_cases h : st.connectionState = ConnState.closed <;>
    simp [h, WsEvent.isSettlement]

/-- C4 counterexample: a controller rejection for pending invocation 3
produces no rejection (indeed no settlement at all) of the promise of
the call, although the pending entry is deleted; only an error notice is
pushed. This falsifies the claim that the promise is rejected with an
ActionError and never left unresolved. -/
theorem handleResult_failure_counterexample :
    ((handleResult wsResultState failedResult).2.any WsEvent.isRejection) = false ∧
    ((handleResult wsResultState failedResult).2.any WsEvent.isSettlement) = false ∧
    (handleResult wsResultState failedResult).1.pendingCommands = [] ∧
    ((handleResult wsResultState failedResult).2.any WsEvent.isErrorNotice) = true := by
  decide

/-- C4 amended: on a reply with success false for a pending invocation,
the error is pushed to the error-observer channel (carrying the message
of the controller but not its code), the pending entry is removed, and
the promise of the call is neither resolved nor rejected: it is left
unresolved forever. -/
theorem handleResult_failure_notifies_without_settling (st : WsState)
    (m : ResultMessage)
    (hpending : (st.pendingCommands.any (fun i => i == m.id)) = true)
    (hfail : m.success = false) :
    (handleResult st m).1.pendingCommands
        = st.pendingCommands.filter (fun i => !(i == m.id)) ∧
    (handleResult st m).2 = [.errorNotified (commandFailedText m.error)] ∧
    ((handleResult st m).2.any WsEvent.isSettlement) = false := by
  unfold handleResult
  simp [hpending, hfail, WsEvent.isSettlement]

/-- Witness for the amended C4 at the concrete rejection reply. -/
theorem handleResult_failure_notifies_without_settling_witness :
    (handleResult wsResultState failedResult).1.pendingCommands
        = wsResultState.pendingCommands.filter (fun i => !(i == failedResult.id)) ∧
    (handleResult wsResultState failedResult).2
        = [.errorNotified (commandFailedText failedResult.error)] ∧
    ((handleResult wsResultState failedResult).2.any WsEvent.isSettlement) = false :=
  handleResult_failure_notifies_without_settling wsResultState failedResult
    (by decide) (by decide)

/-- C5: an auth_invalid message during the handshake moves the push
transport to the Error state, rejects the pending connect promise with
the authentication-failure error, and pushes the same error to the
error-observer channel. -/
theorem authInvalid_error_state_and_reject (st : WsState) (message : String) :
    (handleMessage st (.authInvalid message)).1.connectionState = .error ∧
    WsEvent.connectRejected (authFailedText message)
        ∈ (handleMessage st (.authInvalid message)).2 ∧
    WsEvent.errorNotified (authFailedText message)
        ∈ (handleMessage st (.authInvalid message)).2 := by
  unfold handleMessage updateConnectionState
  by_cases h : st.connectionState = ConnState.error <;> simp [h]

/-- C9: on both transports, disconnect called twice in a row is
idempotent: the connection state reads Closed after each of the two
calls, neither call pushes anything to the error channel, and the second
call does not change the state further. -/
theorem disconnect_idempotent_both_transports (wst : WsState) (rst : RestState) :
    (wsDisconnect wst).1.connectionState = .closed ∧
    (wsDisconnect (wsDisconnect wst).1).1.connectionState = .closed ∧
    ((wsDisconnect wst).2.any WsEvent.isErrorNotice) = false ∧
    ((wsDisconnect (wsDisconnect wst).1).2.any WsEvent.isErrorNotice) = false ∧
    (wsDisconnect (wsDisconnect wst).1).1 = (wsDisconnect wst).1 ∧
    restConnectionState (restDisconnect rst).1 = .closed ∧
    restConnectionState (restDisconnect (restDisconnect rst).1).1 = .closed ∧
    ((restDisconnect rst).2.any RestEvent.isErrorNotice) = false ∧
    ((restDisconnect (restDisconnect rst).1).2.any RestEvent.isErrorNotice) = false ∧
    (restDisconnect (restDisconnect rst).1).1 = (restDisconnect rst).1 := by
  unfold wsDisconnect clearTimers updateConnectionState restDisconnect restConnectionState
  by_cases h : wst.connectionState = ConnState.closed <;>
    simp [h, WsEvent.isErrorNotice, RestEvent.isErrorNotice]

/-! ## Scene-engine lemmas and claims C2, C7 -/

lemma sceneSet_cons_ne (p : String × ActiveSceneState) (rest : SceneMap)
    (k : String) (v : ActiveSceneState) (hp : (p.fst == k) = false) :
    sceneSet (p :: rest) k v = p :: sceneSet rest k v := by
  have hne : ¬ (p.1 = k) := by simpa using beq_eq_false_iff_ne.mp hp
  by_cases h2 : rest.any (fun q => q.fst == k) <;>
    simp [sceneSet, List.any_cons, hp, h2, hne]

lemma sceneLookup_cons_ne (p : String × ActiveSceneState) (rest : SceneMap)
    (k : String) (hp : (p.fst == k) = false) :
    sceneLookup (p :: rest) k = sceneLookup rest k := by
  simp [sceneLookup, List.find?, hp]

lemma sceneLookup_sceneSet :
    ∀ (m : SceneMap) (k : String) (v : ActiveSceneState),
      sceneLookup (sceneSet m k v) k = some v
  | [], k, v => by simp [sceneSet, sceneLookup, List.find?]
  | p :: rest, k, v => by
    by_cases hp : (p.fst == k) = true
    · have hk : p.fst = k := eq_of_beq hp
      have hhead : sceneSet (p :: rest) k v
          = (k, v) :: rest.map (fun q => if q.fst == k then (k, v) else q) := by
        unfold sceneSet
        simp [List.any_cons, hp, hk]
      rw [hhead]
      simp [sceneLookup, List.find?]
    · have hp' : (p.fst == k) = false := by
        simpa using hp
      rw [sceneSet_cons_ne p rest k v hp', sceneLookup_cons_ne p (sceneSet rest k v) k hp']
      exact sceneLookup_sceneSet rest k v

lemma isSceneActive_sceneDelete (m : SceneMap) (k : String) :
    isSceneActive (sceneDelete m k) k = false := by
  induction m with
  | nil => rfl
  | cons p rest ih =>
    by_cases hp : (p.fst == k) = true
    · simpa [sceneDelete, List.filter, hp] using ih
    · have hp' : (p.fst == k) = false := by simpa using hp
      have hdel : sceneDelete (p :: rest) k = p :: sceneDelete rest k := by
        simp [sceneDelete, List.filter, hp']
      rw [hdel]
      simp [isSceneActive, List.any_cons, hp']
      simpa [isSceneActive] using ih

/-- C2: for a scene id present in the entity table, activateScene has
the Active Scene Record (the captured per-member snapshots) in place at
the moment the scene-activation call is issued; when the activation
call fails, the just-created record is discarded, so isSceneActive
reports false afterwards, and an error is surfaced. -/
theorem activateScene_records_before_call (entities : List Entity)
    (scenes : SceneMap) (sceneId : String) (sceneEntity : Entity)
    (callFails : Bool)
    (hscene : getEntity entities sceneId = some sceneEntity) :
    (activateScene entities scenes sceneId callFails).recordAtCall
        = some ⟨sceneId, captureEntityStates entities (getSceneEntities sceneEntity)⟩ ∧
    (activateScene entities scenes sceneId callFails).callIssued
        = some ⟨"scene", "turn_on", [("entity_id", .jstr sceneId)]⟩ ∧
    (callFails = true →
      isSceneActive (activateScene entities scenes sceneId callFails).finalScenes
          sceneId = false ∧
      (activateScene entities scenes sceneId callFails).errorSurfaced ≠ none) := by
  unfold activateScene
  rw [hscene]
  cases callFails <;>
    simp [sceneLookup_sceneSet, isSceneActive_sceneDelete]

/-- The light member of the demo scene: on, brightness 180, plus
attributes that are not relevant to restoration. -/
def lampEntity : Entity :=
  ⟨"light.lamp", "on",
   [("brightness", .jnum 180), ("friendly_name", .jstr "Lamp"),
    ("supported_color_modes", .jarr [.jstr "brightness"])], "t1", "t1"⟩

/-- The switch member of the demo scene: off. -/
def fanEntity : Entity :=
  ⟨"switch.fan", "off", [("friendly_name", .jstr "Fan")], "t1", "t1"⟩

/-- The demo scene entity whose members are the lamp and the fan. -/
def movieScene : Entity :=
  ⟨"scene.movie_night", "2024-01-01T00:00:00Z",
   [("entities", .jobj [("light.lamp", .jobj [("state", .jstr "on")]),
                        ("switch.fan", .jobj [("state", .jstr "on")])]),
    ("friendly_name", .jstr "Movie Night")], "t1", "t1"⟩

/-- The facade entity table of the demo scenario. -/
def demoTable : List Entity := [movieScene, lampEntity, fanEntity]

/-- Witness for C2 at the demo scenario with a failing activation
call. -/
theorem activateScene_records_before_call_witness :
    (activateScene demoTable [] "scene.movie_night" true).recordAtCall
        = some ⟨"scene.movie_night",
            captureEntityStates demoTable (getSceneEntities movieScene)⟩ ∧
    (activateScene demoTable [] "scene.movie_night" true).callIssued
        = some ⟨"scene", "turn_on", [("entity_id", .jstr "scene.movie_night")]⟩ ∧
    (true = true →
      isSceneActive (activateScene demoTable [] "scene.movie_night" true).finalScenes
          "scene.movie_night" = false ∧
      (activateScene demoTable [] "scene.movie_night" true).errorSurfaced ≠ none) :=
  activateScene_records_before_call demoTable [] "scene.movie_night" movieScene true rfl

/-- C7: activating the demo scene captures exactly the two member
snapshots, with only brightness 180 retained for the light (none of its
other attributes) and the switch attributes kept verbatim; deactivating
issues exactly a light turn_on call restoring brightness 180 (with the
transition hint) and a switch turn_off call. -/
theorem scene_snapshot_and_restore_scenario :
    (activateScene demoTable [] "scene.movie_night" false).recordAtCall
      = some ⟨"scene.movie_night",
          [⟨"light.lamp", "on", [("brightness", .jnum 180)]⟩,
           ⟨"switch.fan", "off", [("friendly_name", .jstr "Fan")]⟩]⟩ ∧
    deactivateScene
        (activateScene demoTable [] "scene.movie_night" false).finalScenes
        "scene.movie_night"
      = ([],
         [⟨"light", "turn_on",
           [("entity_id", .jstr "light.lamp"), ("transition", .jnum 1),
            ("brightness", .jnum 180)]⟩,
          ⟨"switch", "turn_off", [("entity_id", .jstr "switch.fan")]⟩]) := by
  exact ⟨rfl, rfl⟩

/-! ## Reconnection backoff, claim C6 -/

/-- The push-transport state right after an unexpected socket close
while Connected: the close handler has set Closed, cleared the timers,
and is about to run attemptReconnect with a reset attempt counter. -/
def wsAfterUnexpectedClose : WsState :=
  { connectionState := .closed, messageId := 10, pendingCommands := [],
    reconnectAttempts := 0, heartbeatTimerActive := false,
    reconnectTimerActive := false, socketOpen := false }

/-- C6: with no retry already scheduled, an attempt with n preceding
failures is scheduled after a delay of the 1-second base doubled per
preceding failure (so the cascade of delays when every attempt fails is
exactly 1s, 2s, 4s, 8s, 16s, with no jitter), and once the attempt
counter has reached 5 the transport moves to the terminal Error state
with no further retry scheduled. -/
theorem reconnect_backoff_and_terminal_error (st : WsState)
    (hT : st.reconnectTimerActive = false) :
    (st.reconnectAttempts < maxReconnectAttempts →
      (attemptReconnect st).2.2 = some (reconnectDelay * 2 ^ st.reconnectAttempts) ∧
      (attemptReconnect st).1.connectionState = .reconnecting) ∧
    (st.reconnectAttempts ≥ maxReconnectAttempts →
      (attemptReconnect st).1.connectionState = .error ∧
      (attemptReconnect st).2.2 = none) ∧
    (reconnectCascade 6 wsAfterUnexpectedClose).1 = [1000, 2000, 4000, 8000, 16000] ∧
    (reconnectCascade 6 wsAfterUnexpectedClose).2.connectionState = .error := by
  refine ⟨?_, ?_, by decide, by decide⟩
  · intro hlt
    have hnge : ¬ (st.reconnectAttempts ≥ maxReconnectAttempts) := not_le.mpr hlt
    unfold attemptReconnect updateConnectionState
    by_cases h : st.connectionState = ConnState.reconnecting <;>
      simp [hT, hnge, h]
  · intro hge
    unfold attemptReconnect updateConnectionState
    by_cases h : st.connectionState = ConnState.error <;>
      simp [hT, hge, h]

/-- Witness for C6 at the state following the unexpected close: the
first attempt is scheduled after the 1-second base delay. -/
theorem reconnect_backoff_and_terminal_error_witness :
    (attemptReconnect wsAfterUnexpectedClose).2.2
        = some (reconnectDelay * 2 ^ wsAfterUnexpectedClose.reconnectAttempts) :=
  ((reconnect_backoff_and_terminal_error wsAfterUnexpectedClose rfl).1 (by decide)).1

/-! ## Poll/diff lemmas and claim C8 -/

lemma assocLookup_cons_ne (p : String × Entity) (m : List (String × Entity))
    (k : String) (hp : (p.fst == k) = false) :
    assocLookup (p :: m) k = assocLookup m k := by
  simp [assocLookup, List.find?, hp]

lemma assocLookup_map_set_ne (k1 k2 : String) (v : Entity)
    (hne : (k1 == k2) = false) :
    ∀ (m : List (String × Entity)),
      assocLookup (m.map (fun p => if p.fst == k1 then (k1, v) else p)) k2
        = assocLookup m k2
  | [] => rfl
  | p :: rest => by
    by_cases hp : (p.fst == k1) = true
    · have hpk : p.fst = k1 := eq_of_beq hp
      have hp2 : (p.fst == k2) = false := by rw [hpk]; exact hne
      have hhead : (p :: rest).map (fun q => if q.fst == k1 then (k1, v) else q)
          = (k1, v) :: rest.map (fun q => if q.fst == k1 then (k1, v) else q) := by
        simp [hp, hpk]
      rw [hhead, assocLookup_cons_ne ⟨k1, v⟩ _ k2 hne,
          assocLookup_cons_ne p rest k2 hp2]
      exact assocLookup_map_set_ne k1 k2 v hne rest
    · have hp' : (p.fst == k1) = false := by simpa using hp
      have hne2 : ¬ p.1 = k1 := by simpa using beq_eq_false_iff_ne.mp hp'
      have hhead : (p :: rest).map (fun q => if q.fst == k1 then (k1, v) else q)
          = p :: rest.map (fun q => if q.fst == k1 then (k1, v) else q) := by
        simp [hp', hne2]
      rw [hhead]
      by_cases hq : (p.fst == k2) = true
      · simp [assocLookup, List.find?, hq]
      · have hq' : (p.fst == k2) = false := by simpa using hq
        rw [assocLookup_cons_ne p _ k2 hq', assocLookup_cons_ne p rest k2 hq']
        exact assocLookup_map_set_ne k1 k2 v hne rest

lemma assocLookup_append_single (k1 k2 : String) (v : Entity)
    (hne : (k1 == k2) = false) :
    ∀ (m : List (String × Entity)),
      assocLookup (m ++ [(k1, v)]) k2 = assocLookup m k2
  | [] => by simp [assocLookup, List.find?, hne]
  | p :: rest => by
    by_cases hp : (p.fst == k2) = true
    · simp [assocLookup, List.find?, hp]
    · have hp' : (p.fst == k2) = false := by simpa using hp
      rw [List.cons_append, assocLookup_cons_ne p (rest ++ [(k1, v)]) k2 hp',
          assocLookup_cons_ne p rest k2 hp']
      exact assocLookup_append_single k1 k2 v hne rest

lemma assocSet_lookup_ne (m : List (String × Entity)) (k1 k2 : String)
    (v : Entity) (hne : (k1 == k2) = false) :
    assocLookup (assocSet m k1 v) k2 = assocLookup m k2 := by
  unfold assocSet
  split
  · exact assocLookup_map_set_ne k1 k2 v hne m
  · exact assocLookup_append_single k1 k2 v hne m

lemma pollFold_shape :
    ∀ (fetched : List Entity) (acc : RestState × List Notification)
      (n : Notification), n ∈ (fetched.foldl pollStepOne acc).2 →
      n ∈ acc.2 ∨ (n.newState ∈ fetched ∧ n.entityId = n.newState.entity_id ∧
        entityUnchanged n.oldState n.newState = false)
  | [], _, n, hn => Or.inl (by simpa using hn)
  | x :: rest, acc, n, hn => by
    rw [List.foldl_cons] at hn
    rcases pollFold_shape rest (pollStepOne acc x) n hn with hmem | hprop
    · by_cases hsk : entityUnchanged (assocLookup acc.1.lastStates x.entity_id) x = true
      · have hno : pollStepOne acc x = acc := by
          unfold pollStepOne
          simp [hsk]
        rw [hno] at hmem
        exact Or.inl hmem
      · have hsf : entityUnchanged (assocLookup acc.1.lastStates x.entity_id) x = false := by
          simpa using hsk
        have hstep : pollStepOne acc x
            = ({ acc.1 with lastStates := assocSet acc.1.lastStates x.entity_id x },
               acc.2 ++ [⟨x.entity_id, x, assocLookup acc.1.lastStates x.entity_id⟩]) := by
          unfold pollStepOne
          simp [hsf]
        rw [hstep] at hmem
        simp only [List.mem_append, List.mem_singleton] at hmem
        rcases hmem with h | h
        · exact Or.inl h
        · subst h
          exact Or.inr ⟨List.mem_cons_self x rest, rfl, hsf⟩
    · exact Or.inr ⟨List.mem_cons_of_mem x hprop.1, hprop.2.1, hprop.2.2⟩

lemma pollFold_no_notif_for_unchanged (targetId : String) (e : Entity)
    (hid : e.entity_id = targetId) :
    ∀ (fetched : List Entity) (acc : RestState × List Notification),
      entityUnchanged (assocLookup acc.1.lastStates targetId) e = true →
      (∀ e2 ∈ fetched, e2.entity_id = targetId → e2 = e) →
      (∀ n ∈ acc.2, n.entityId ≠ targetId) →
      ∀ n ∈ (fetched.foldl pollStepOne acc).2, n.entityId ≠ targetId
  | [], acc, _, _, hacc, n, hn => hacc n (by simpa using hn)
  | x :: rest, acc, hinv, huniq, hacc, n, hn => by
    rw [List.foldl_cons] at hn
    by_cases hx : x.entity_id = targetId
    · have hxe : x = e := huniq x (List.mem_cons_self x rest) hx
      subst hxe
      have hno : pollStepOne acc x = acc := by
        unfold pollStepOne
        simp [hid, hinv]
      rw [hno] at hn
      exact pollFold_no_notif_for_unchanged targetId x hid rest acc hinv
        (fun e2 h2 => huniq e2 (List.mem_cons_of_mem x h2)) hacc n hn
    · by_cases hsk : entityUnchanged (assocLookup acc.1.lastStates x.entity_id) x = true
      · have hno : pollStepOne acc x = acc := by
          unfold pollStepOne
          simp [hsk]
        rw [hno] at hn
        exact pollFold_no_notif_for_unchanged targetId e hid rest acc hinv
          (fun e2 h2 => huniq e2 (List.mem_cons_of_mem x h2)) hacc n hn
      · have hsf : entityUnchanged (assocLookup acc.1.lastStates x.entity_id) x = false := by
          simpa using hsk
        have hstep : pollStepOne acc x
            = ({ acc.1 with lastStates := assocSet acc.1.lastStates x.entity_id x },
               acc.2 ++ [⟨x.entity_id, x, assocLookup acc.1.lastStates x.entity_id⟩]) := by
          unfold pollStepOne
          simp [hsf]
        rw [hstep] at hn
        have hxb : (x.entity_id == targetId) = false := beq_eq_false_iff_ne.mpr hx
        have hinv2 : entityUnchanged
            (assocLookup (assocSet acc.1.lastStates x.entity_id x) targetId) e = true := by
          rw [assocSet_lookup_ne acc.1.lastStates x.entity_id targetId x hxb]
          exact hinv
        have hacc2 : ∀ n2 ∈ acc.2 ++ [Notification.mk x.entity_id x
            (assocLookup acc.1.lastStates x.entity_id)], n2.entityId ≠ targetId := by
          intro n2 hn2
          rcases List.mem_append.mp hn2 with h | h
          · exact hacc n2 h
          · rw [List.mem_singleton.mp h]
            exact hx
        exact pollFold_no_notif_for_unchanged targetId e hid rest _ hinv2
          (fun e2 h2 => huniq e2 (List.mem_cons_of_mem x h2)) hacc2 n hn

/-- C8: on the pull transport, a poll cycle delivers no change
notification for an entity whose state value and serialized attributes
mapping coincide with the last observed value (in particular, two
consecutive poll cycles returning identical data for an entity deliver
nothing for it); conversely every notification a cycle delivers is for a
fetched entity whose comparison differed, and it carries the whole
replaced entity. -/
theorem pull_poll_unchanged_entity_not_notified (st : RestState)
    (fetched : List Entity) (e : Entity)
    (hold : entityUnchanged (assocLookup st.lastStates e.entity_id) e = true)
    (huniq : ∀ e2 ∈ fetched, e2.entity_id = e.entity_id → e2 = e) :
    ((pollEntities st fetched).2.all (fun n => !(n.entityId == e.entity_id))) = true ∧
    ∀ n ∈ (pollEntities st fetched).2,
      n.newState ∈ fetched ∧ n.entityId = n.newState.entity_id ∧
      entityUnchanged n.oldState n.newState = false := by
  constructor
  · rw [List.all_eq_true]
    intro n hn
    unfold pollEntities at hn
    by_cases hguard : (!st.connected || st.callbackCount == 0) = true
    · rw [if_pos hguard] at hn
      simp at hn
    · rw [if_neg hguard] at hn
      have := pollFold_no_notif_for_unchanged e.entity_id e rfl fetched (st, [])
        hold huniq (by intro n2 hn2; simp at hn2) n hn
      simpa using this
  · intro n hn
    unfold pollEntities at hn
    by_cases hguard : (!st.connected || st.callbackCount == 0) = true
    · rw [if_pos hguard] at hn
      simp at hn
    · rw [if_neg hguard] at hn
      rcases pollFold_shape fetched (st, []) n hn with hmem | hprop
      · simp at hmem
      · exact hprop

/-- The entity returned identically by two consecutive poll cycles. -/
def lxEntity : Entity := ⟨"light.x", "on", [("brightness", .jnum 128)], "t1", "t1"⟩

/-- A connected pull-transport state with one registered listener and no
previously observed entities. -/
def restConnectedState : RestState :=
  { connected := true, pollingActive := true, callbackCount := 1, lastStates := [] }

/-- Witness for C8: after a first poll cycle observed light.x, a second
cycle returning the identical entity delivers no notification for it. -/
theorem pull_poll_unchanged_entity_not_notified_witness :
    (((pollEntities (pollEntities restConnectedState [lxEntity]).1 [lxEntity]).2).all
      (fun n => !(n.entityId == lxEntity.entity_id))) = true :=
  (pull_poll_unchanged_entity_not_notified
      (pollEntities restConnectedState [lxEntity]).1 [lxEntity] lxEntity
      (by decide)
      (by
        intro e2 h2 _
        exact List.mem_singleton.mp h2)).1

end HomeApp
